import Mathlib

/-!
# Verification of the Story-App backend (FastAPI + Mongo document store)

Shallow embedding of `src/main.py` and `src/schemas.py`: a three-level
hierarchical content model (Story → Chapter → Bubble) over a document store.

Collections are modelled as Lean lists in the store's (stable per-query)
return order.  Mongo `ObjectId` identities are modelled as their 24-hex-char
string form.  The handlers of `main.py` are translated as pure functions over
an explicit `DB` state; each state-touching handler additionally returns the
list of store events (reads/writes) it issued, in order, so that claims about
"before any store access" and "no record written" can be stated.
-/

/-- A store access performed by a handler, in program order.
`read c` is a `find_one`/`find`/`count_documents` on collection `c`;
`write c` is an insert into collection `c`. -/
inductive StoreEvent where
  | read (coll : String)
  | write (coll : String)
deriving DecidableEq, Repr

/-- The error outcomes of the handlers:
`invalidId` is `HTTPException(status_code=400, ...)` (client error),
`notFound` is `HTTPException(status_code=404, ...)` (client error),
`validationError` is a pydantic `ValidationError` raised when constructing a
schema object (`Story`/`Chapter`/`Bubble` in `schemas.py`) or when FastAPI
parses a request body into the payload model. -/
inductive ApiError where
  | invalidId (detail : String)
  | notFound (detail : String)
  | validationError
deriving DecidableEq, Repr

/-- A stored document of the `story` collection (`_id` in string form). -/
structure StoryDoc where
  _id : String
  title : String
  author : Option String
  cover_image : Option String
  description : Option String
deriving DecidableEq, Repr

/-- A stored document of the `chapter` collection.  `order` is `none` when the
stored document lacks the `order` field (read paths use `.get("order", 0)`). -/
structure ChapterDoc where
  _id : String
  story_id : String
  title : String
  order : Option Int
deriving DecidableEq, Repr

/-- A stored document of the `bubble` collection. -/
structure BubbleDoc where
  _id : String
  chapter_id : String
  content_html : String
  order : Option Int
deriving DecidableEq, Repr

/-- The document store: one list per collection, in the store's (stable
per-query) return order. -/
structure DB where
  story : List StoryDoc
  chapter : List ChapterDoc
  bubble : List BubbleDoc
deriving DecidableEq, Repr

/-- `bson.ObjectId.is_valid` on a string: exactly 24 hexadecimal characters. -/
def ObjectId.is_valid (s : String) : Bool :=
  s.length == 24 && s.toList.all (fun c =>
    c.isDigit || (('a' ≤ c && c ≤ 'f') || ('A' ≤ c && c ≤ 'F')))

/-- Modelled from the spec: `database.py` (the Document Store Adapter) is not
under `src/`.  `findAll(collectionName, filter) -> sequence of records`
"returns all records matching an equality filter", "no ordering guarantee from
the store itself", in the store's stable per-query return order.  This is
`get_documents("chapter", {"story_id": story_id})`. -/
def get_documents_chapter (d : DB) (story_id : String) : List ChapterDoc :=
  d.chapter.filter (fun c => c.story_id == story_id)

/-- Modelled from the spec: `database.py` is not under `src/`.  This is
`get_documents("bubble", {"chapter_id": chapter_id})`. -/
def get_documents_bubble (d : DB) (chapter_id : String) : List BubbleDoc :=
  d.bubble.filter (fun b => b.chapter_id == chapter_id)

/-- Sibling comparison used by the listing endpoints:
`sorted(docs, key=lambda x: x.get("order", 0))` compares the `order` field,
defaulting a missing field to `0`. -/
abbrev chapterListLE (a b : ChapterDoc) : Prop :=
  a.order.getD 0 ≤ b.order.getD 0

/-- Sibling comparison used by `list_bubbles`, as in `chapterListLE`. -/
abbrev bubbleListLE (a b : BubbleDoc) : Prop :=
  a.order.getD 0 ≤ b.order.getD 0

/-- BSON comparison on an optional integer field, as used by the store-side
`.sort("order", 1)` in `get_story_detail`: a missing field sorts before every
number. -/
def leOptInt : Option Int → Option Int → Prop
  | none, _ => True
  | some _, none => False
  | some x, some y => x ≤ y

instance : DecidableRel leOptInt := fun a b =>
  match a, b with
  | none, _ => isTrue trivial
  | some _, none => isFalse id
  | some x, some y => inferInstanceAs (Decidable (x ≤ y))

/-- Store-side chapter comparison for `.sort("order", 1)` in the detail path. -/
abbrev chapterDbLE (a b : ChapterDoc) : Prop := leOptInt a.order b.order

/-- Store-side bubble comparison for `.sort("order", 1)` in the detail path. -/
abbrev bubbleDbLE (a b : BubbleDoc) : Prop := leOptInt a.order b.order

/-! ## Response shapes -/

/-- `ChapterOut` response model of `main.py`. -/
structure ChapterOut where
  id : String
  story_id : String
  title : String
  order : Int
deriving DecidableEq, Repr

/-- `BubbleOut` response model of `main.py`. -/
structure BubbleOut where
  id : String
  chapter_id : String
  content_html : String
  order : Int
deriving DecidableEq, Repr

/-- A bubble entry of the nested story-detail response. -/
structure BubbleEntry where
  id : String
  content_html : String
  order : Int
deriving DecidableEq, Repr

/-- A chapter entry of the nested story-detail response. -/
structure ChapterEntry where
  id : String
  title : String
  order : Int
  bubbles : List BubbleEntry
deriving DecidableEq, Repr

/-- The story-detail response of `GET /api/stories/{story_id}`. -/
structure StoryDetail where
  id : String
  title : String
  author : Option String
  cover_image : Option String
  description : Option String
  chapters : List ChapterEntry
deriving DecidableEq, Repr

/-! ## Request payloads -/

/-- `ChapterCreate` payload model (`order: int = 0`, no sign constraint). -/
structure ChapterCreate where
  story_id : String
  title : String
  order : Int
deriving DecidableEq, Repr

/-- `BubbleCreate` payload model (`order: int = 0`, no sign constraint). -/
structure BubbleCreate where
  chapter_id : String
  content_html : String
  order : Int
deriving DecidableEq, Repr

/-- `StoryCreate` payload model (`title: str`; optional string fields). -/
structure StoryCreate where
  title : String
  author : Option String
  cover_image : Option String
  description : Option String
deriving DecidableEq, Repr

/-- A JSON value of a request body, for modelling pydantic body validation. -/
inductive JValue where
  | null
  | str (s : String)
  | int (n : Int)
  | bool (b : Bool)
  | arr (xs : List JValue)
  | obj (fields : List (String × JValue))

/-- Whether a JSON value is a string (pydantic v2 does not coerce non-string
JSON values into a `str` field). -/
def JValue.isStr : JValue → Bool
  | .str _ => true
  | _ => false

/-- Look up a field of a JSON object body. -/
def lookupField (fields : List (String × JValue)) (k : String) : Option JValue :=
  (fields.find? (fun kv => kv.1 == k)).map (fun kv => kv.2)

/-- Pydantic validation of an `Optional[str] = None` field: absent or `null`
yields `None`, a string is accepted, anything else is a validation error. -/
def asOptStr : Option JValue → Except ApiError (Option String)
  | none => .ok none
  | some .null => .ok none
  | some (.str s) => .ok (some s)
  | some _ => .error .validationError

/-- FastAPI parsing of a `POST /api/stories` body into `StoryCreate`:
`title: str` is required and must be a JSON string (the empty string is a
string, hence accepted); the other three fields are `Optional[str] = None`. -/
def validateStoryCreate (body : List (String × JValue)) :
    Except ApiError StoryCreate :=
  match lookupField body "title" with
  | some (.str t) => do
      let a ← asOptStr (lookupField body "author")
      let c ← asOptStr (lookupField body "cover_image")
      let de ← asOptStr (lookupField body "description")
      .ok ⟨t, a, c, de⟩
  | _ => .error .validationError

/-! ## Handlers -/

/-- `POST /api/stories` (`create_story`): FastAPI validates the body into
`StoryCreate`, the handler builds `StorySchema` (same fields, no further
constraints) and inserts it.  `fresh` is the store-assigned identity
(modelled from the spec: `insert` of the absent `database.py` "returns newly
assigned opaque identity"). -/
def create_story (d : DB) (body : List (String × JValue)) (fresh : String) :
    Except ApiError String × DB × List StoreEvent :=
  match validateStoryCreate body with
  | .error e => (.error e, d, [])
  | .ok p =>
      (.ok fresh,
       { d with story := d.story ++ [⟨fresh, p.title, p.author, p.cover_image, p.description⟩] },
       [.write "story"])

/-- `POST /api/chapters` (`create_chapter`): reject a malformed `story_id`
(400) before any store access; count matching stories (404 when zero); then
construct `ChapterSchema`, whose `order: int = Field(0, ge=0)` raises a
pydantic `ValidationError` on a negative `order`; only then insert. -/
def create_chapter (d : DB) (p : ChapterCreate) (fresh : String) :
    Except ApiError String × DB × List StoreEvent :=
  if !ObjectId.is_valid p.story_id then
    (.error (.invalidId "Invalid story id"), d, [])
  else if (d.story.filter (fun s => s._id == p.story_id)).length == 0 then
    (.error (.notFound "Parent story not found"), d, [.read "story"])
  else if p.order < 0 then
    (.error .validationError, d, [.read "story"])
  else
    (.ok fresh,
     { d with chapter := d.chapter ++ [⟨fresh, p.story_id, p.title, some p.order⟩] },
     [.read "story", .write "chapter"])

/-- `POST /api/bubbles` (`create_bubble`), mirroring `create_chapter` with the
`chapter` collection as parent. -/
def create_bubble (d : DB) (p : BubbleCreate) (fresh : String) :
    Except ApiError String × DB × List StoreEvent :=
  if !ObjectId.is_valid p.chapter_id then
    (.error (.invalidId "Invalid chapter id"), d, [])
  else if (d.chapter.filter (fun c => c._id == p.chapter_id)).length == 0 then
    (.error (.notFound "Parent chapter not found"), d, [.read "chapter"])
  else if p.order < 0 then
    (.error .validationError, d, [.read "chapter"])
  else
    (.ok fresh,
     { d with bubble := d.bubble ++ [⟨fresh, p.chapter_id, p.content_html, some p.order⟩] },
     [.read "chapter", .write "bubble"])

/-- Serialization of a chapter document by `list_chapters`
(`order=d.get("order", 0)`). -/
def chapterOutOfDoc (c : ChapterDoc) : ChapterOut :=
  ⟨c._id, c.story_id, c.title, c.order.getD 0⟩

/-- Serialization of a bubble document by `list_bubbles`. -/
def bubbleOutOfDoc (b : BubbleDoc) : BubbleOut :=
  ⟨b._id, b.chapter_id, b.content_html, b.order.getD 0⟩

/-- `GET /api/chapters?story_id=` (`list_chapters`): fetch the matching
documents from the store, sort them with Python's stable `sorted` on the key
`x.get("order", 0)` (modelled by the stable `List.insertionSort`), serialize. -/
def list_chapters (d : DB) (story_id : String) : List ChapterOut :=
  ((get_documents_chapter d story_id).insertionSort chapterListLE).map chapterOutOfDoc

/-- `GET /api/bubbles?chapter_id=` (`list_bubbles`). -/
def list_bubbles (d : DB) (chapter_id : String) : List BubbleOut :=
  ((get_documents_bubble d chapter_id).insertionSort bubbleListLE).map bubbleOutOfDoc

/-- Serialization of a bubble document inside the story-detail response. -/
def bubbleEntryOfDoc (b : BubbleDoc) : BubbleEntry :=
  ⟨b._id, b.content_html, b.order.getD 0⟩

/-- One chapter entry of the story-detail response: the loop body of
`get_story_detail` fetches `db["bubble"].find({"chapter_id": str(ch["_id"])})
.sort("order", 1)` and nests the serialized bubbles. -/
def chapterEntryOfDoc (d : DB) (ch : ChapterDoc) : ChapterEntry :=
  ⟨ch._id, ch.title, ch.order.getD 0,
   ((d.bubble.filter (fun b => b.chapter_id == ch._id)).insertionSort bubbleDbLE).map
     bubbleEntryOfDoc⟩

/-- `GET /api/stories/{story_id}` (`get_story_detail`): 400 on a malformed id
before any store access, 404 when `find_one` yields nothing, otherwise the
story's fields with the nested, store-sorted chapter/bubble tree. -/
def get_story_detail (d : DB) (story_id : String) :
    Except ApiError StoryDetail × List StoreEvent :=
  if !ObjectId.is_valid story_id then
    (.error (.invalidId "Invalid story id"), [])
  else
    match d.story.find? (fun s => s._id == story_id) with
    | none => (.error (.notFound "Story not found"), [.read "story"])
    | some story =>
        let chapters :=
          (d.chapter.filter (fun c => c.story_id == story_id)).insertionSort chapterDbLE
        (.ok ⟨story._id, story.title, story.author, story.cover_image, story.description,
              chapters.map (chapterEntryOfDoc d)⟩,
         [.read "story", .read "chapter"] ++ chapters.map (fun _ => .read "bubble"))

/-- Normalization of a chapter document that lacks the `order` field into one
carrying the literal `0` (used to state that read paths treat a missing
`order` as `0`). -/
def normChapter (c : ChapterDoc) : ChapterDoc :=
  { c with order := some (c.order.getD 0) }

/-- Normalization of a bubble document lacking `order`, as `normChapter`. -/
def normBubble (b : BubbleDoc) : BubbleDoc :=
  { b with order := some (b.order.getD 0) }

/-! ## Helper lemmas: stability of `List.insertionSort`

Python's `sorted` is a stable sort; `List.insertionSort` (which inserts an
element *before* every element it ties with, and is run right-to-left over the
input) is stable as well: the sublist of elements pairwise tied under the
comparison is preserved.  These lemmas make that precise via `filter`. -/

theorem filter_orderedInsert_pos {α : Type} (r : α → α → Prop) [DecidableRel r]
    (p : α → Bool) (x : α) (l : List α) (hpx : p x = true)
    (h : ∀ y ∈ l, p y = true → r x y) :
    (l.orderedInsert r x).filter p = x :: l.filter p := by
  induction l with
  | nil => simp [hpx]
  | cons y ys ih =>
    by_cases hr : r x y
    · simp [List.orderedInsert, if_pos hr, hpx]
    · have hpy : p y = false := by
        cases hy : p y
        · rfl
        · exact absurd (h y (List.mem_cons_self y ys) hy) hr
      simp only [List.orderedInsert, if_neg hr, List.filter_cons, hpy]
      simp only [Bool.false_eq_true, if_false]
      exact ih (fun z hz hpz => h z (List.mem_cons_of_mem y hz) hpz)

theorem filter_orderedInsert_neg {α : Type} (r : α → α → Prop) [DecidableRel r]
    (p : α → Bool) (x : α) (l : List α) (hpx : p x = false) :
    (l.orderedInsert r x).filter p = l.filter p := by
  induction l with
  | nil => simp [hpx]
  | cons y ys ih =>
    by_cases hr : r x y
    · simp [List.orderedInsert, if_pos hr, hpx]
    · simp only [List.orderedInsert, if_neg hr, List.filter_cons]
      rw [ih]

theorem filter_insertionSort {α : Type} (r : α → α → Prop) [DecidableRel r]
    (p : α → Bool) (hp : ∀ a b, p a = true → p b = true → r a b) :
    ∀ l : List α, (l.insertionSort r).filter p = l.filter p := by
  intro l
  induction l with
  | nil => rfl
  | cons x xs ih =>
    cases hpx : p x
    · rw [List.insertionSort, filter_orderedInsert_neg r p x _ hpx, ih]
      simp [List.filter_cons, hpx]
    · rw [List.insertionSort,
        filter_orderedInsert_pos r p x _ hpx (fun y _ hy => hp x y hpx hy), ih]
      simp [List.filter_cons, hpx]

/-- In a list whose image under `f` has no duplicates, exactly one member
satisfies both `f · = f x` and `q` as soon as the member `x` satisfies `q`. -/
theorem countP_key_eq_one {α γ : Type} [DecidableEq γ] (f : α → γ) (q : α → Bool) :
    ∀ l : List α, (l.map f).Nodup → ∀ x ∈ l, q x = true →
      l.countP (fun y => (f y == f x) && q y) = 1 := by
  intro l
  induction l with
  | nil => intro _ x hx; exact absurd hx (List.not_mem_nil x)
  | cons a as ih =>
    intro hnd x hx hqx
    have hnd2 : (f a :: as.map f).Nodup := by rw [List.map_cons] at hnd; exact hnd
    have hnd' : (as.map f).Nodup := (List.nodup_cons.mp hnd2).2
    have hfa : f a ∉ as.map f := (List.nodup_cons.mp hnd2).1
    rcases List.mem_cons.mp hx with hxa | hxas
    · subst hxa
      rw [List.countP_cons, if_pos (by simp [hqx])]
      have : as.countP (fun y => (f y == f x) && q y) = 0 := by
        rw [List.countP_eq_zero]
        intro b hb
        simp only [Bool.and_eq_true, beq_iff_eq]
        rintro ⟨hfb, -⟩
        exact hfa (hfb ▸ List.mem_map_of_mem f hb)
      rw [this]
    · have hne : f a ≠ f x := by
        intro heq
        exact hfa (heq ▸ List.mem_map_of_mem f hxas)
      rw [List.countP_cons, if_neg (by simp [hne]), ih hnd' x hxas hqx]

/-! ## Claim theorems -/

/-- C1: for `GET /api/stories/{id}` (`get_story_detail`), a malformed id fails
with the `invalidId` (400-class) error before any store query (empty event
trace), and a well-formed id matching no stored Story fails with `notFound`
(404-class) after only the single story read; neither input yields any other
(server) error, the results being exactly these two client errors. -/
theorem c1_story_detail_errors (d : DB) (sid : String) :
    (ObjectId.is_valid sid = false →
      get_story_detail d sid = (.error (.invalidId "Invalid story id"), []))
    ∧ (ObjectId.is_valid sid = true →
       d.story.find? (fun s => s._id == sid) = none →
      get_story_detail d sid = (.error (.notFound "Story not found"), [.read "story"])) := by
  constructor
  · intro hv
    simp [get_story_detail, hv]
  · intro hv hf
    simp [get_story_detail, hv, hf]

theorem c1_story_detail_errors_witness :
    (ObjectId.is_valid "zz" = false
      ∧ get_story_detail ⟨[], [], []⟩ "zz" = (.error (.invalidId "Invalid story id"), []))
    ∧ (ObjectId.is_valid "aaaaaaaaaaaaaaaaaaaaaaaa" = true
      ∧ (⟨[], [], []⟩ : DB).story.find? (fun s => s._id == "aaaaaaaaaaaaaaaaaaaaaaaa") = none
      ∧ get_story_detail ⟨[], [], []⟩ "aaaaaaaaaaaaaaaaaaaaaaaa"
          = (.error (.notFound "Story not found"), [.read "story"])) :=
  ⟨⟨by decide, (c1_story_detail_errors ⟨[], [], []⟩ "zz").1 (by decide)⟩,
   ⟨by decide, rfl,
    (c1_story_detail_errors ⟨[], [], []⟩ "aaaaaaaaaaaaaaaaaaaaaaaa").2 (by decide) rfl⟩⟩

/-- C2: for `create_chapter` and `create_bubble`, a malformed parent id fails
with `invalidId` (400) before any store access (empty trace, store unchanged);
a well-formed parent id matching no parent record fails with `notFound` (404)
after only the parent count read, store unchanged; and the store is mutated
only when the parent id is well-formed and the parent-existence check
succeeds. -/
theorem c2_create_validates_parent (d : DB) (cp : ChapterCreate)
    (bp : BubbleCreate) (f1 f2 : String) :
    (ObjectId.is_valid cp.story_id = false →
      create_chapter d cp f1 = (.error (.invalidId "Invalid story id"), d, []))
    ∧ (ObjectId.is_valid cp.story_id = true →
       (d.story.filter (fun s => s._id == cp.story_id)).length = 0 →
      create_chapter d cp f1 = (.error (.notFound "Parent story not found"), d, [.read "story"]))
    ∧ ((create_chapter d cp f1).2.1 ≠ d →
       ObjectId.is_valid cp.story_id = true
       ∧ (d.story.filter (fun s => s._id == cp.story_id)).length ≠ 0)
    ∧ (ObjectId.is_valid bp.chapter_id = false →
      create_bubble d bp f2 = (.error (.invalidId "Invalid chapter id"), d, []))
    ∧ (ObjectId.is_valid bp.chapter_id = true →
       (d.chapter.filter (fun c => c._id == bp.chapter_id)).length = 0 →
      create_bubble d bp f2 = (.error (.notFound "Parent chapter not found"), d, [.read "chapter"]))
    ∧ ((create_bubble d bp f2).2.1 ≠ d →
       ObjectId.is_valid bp.chapter_id = true
       ∧ (d.chapter.filter (fun c => c._id == bp.chapter_id)).length ≠ 0) := by
  refine ⟨?_, ?_, ?_, ?_, ?_, ?_⟩
  · intro hv; simp [create_chapter, hv]
  · intro hv hl; simp [create_chapter, hv, hl]
  · intro hne
    by_cases hv : ObjectId.is_valid cp.story_id = true
    · by_cases hl : (d.story.filter (fun s => s._id == cp.story_id)).length = 0
      · exact absurd (by simp [create_chapter, hv, hl]) hne
      · exact ⟨hv, hl⟩
    · exact absurd (by simp [create_chapter, Bool.of_not_eq_true hv]) hne
  · intro hv; simp [create_bubble, hv]
  · intro hv hl; simp [create_bubble, hv, hl]
  · intro hne
    by_cases hv : ObjectId.is_valid bp.chapter_id = true
    · by_cases hl : (d.chapter.filter (fun c => c._id == bp.chapter_id)).length = 0
      · exact absurd (by simp [create_bubble, hv, hl]) hne
      · exact ⟨hv, hl⟩
    · exact absurd (by simp [create_bubble, Bool.of_not_eq_true hv]) hne

theorem c2_create_validates_parent_witness :
    (ObjectId.is_valid "zz" = false
      ∧ create_chapter ⟨[], [], []⟩ ⟨"zz", "C", 0⟩ "aaaaaaaaaaaaaaaaaaaaaaaa"
          = (.error (.invalidId "Invalid story id"), ⟨[], [], []⟩, []))
    ∧ (ObjectId.is_valid "aaaaaaaaaaaaaaaaaaaaaaaa" = true
      ∧ ((⟨[], [], []⟩ : DB).story.filter
           (fun s => s._id == "aaaaaaaaaaaaaaaaaaaaaaaa")).length = 0
      ∧ create_bubble ⟨[], [], []⟩ ⟨"aaaaaaaaaaaaaaaaaaaaaaaa", "x", 0⟩ "bbbbbbbbbbbbbbbbbbbbbbbb"
          = (.error (.notFound "Parent chapter not found"), ⟨[], [], []⟩, [.read "chapter"])) :=
  ⟨⟨by decide,
    (c2_create_validates_parent ⟨[], [], []⟩ ⟨"zz", "C", 0⟩
      ⟨"zz", "x", 0⟩ "aaaaaaaaaaaaaaaaaaaaaaaa" "bbbbbbbbbbbbbbbbbbbbbbbb").1 (by decide)⟩,
   ⟨by decide, rfl,
    (c2_create_validates_parent ⟨[], [], []⟩ ⟨"zz", "C", 0⟩
      ⟨"aaaaaaaaaaaaaaaaaaaaaaaa", "x", 0⟩ "aaaaaaaaaaaaaaaaaaaaaaaa"
      "bbbbbbbbbbbbbbbbbbbbbbbb").2.2.2.2.1 (by decide) rfl⟩⟩

/-- C5: fetching the detail of a Story that exists (first `find_one` match)
and has no Chapter referencing it succeeds and returns the story's fields with
`chapters` equal to the empty list (no error, not null). -/
theorem c5_detail_empty_chapters (d : DB) (sid : String) (s : StoryDoc)
    (hv : ObjectId.is_valid sid = true)
    (hf : d.story.find? (fun x => x._id == sid) = some s)
    (hc : d.chapter.filter (fun c => c.story_id == sid) = []) :
    get_story_detail d sid =
      (.ok ⟨s._id, s.title, s.author, s.cover_image, s.description, []⟩,
       [.read "story", .read "chapter"]) := by
  simp [get_story_detail, hv, hf, hc]

theorem c5_detail_empty_chapters_witness :
    (ObjectId.is_valid "aaaaaaaaaaaaaaaaaaaaaaaa" = true
     ∧ (⟨[⟨"aaaaaaaaaaaaaaaaaaaaaaaa", "A", none, none, none⟩], [], []⟩ : DB).story.find?
        (fun x => x._id == "aaaaaaaaaaaaaaaaaaaaaaaa")
        = some ⟨"aaaaaaaaaaaaaaaaaaaaaaaa", "A", none, none, none⟩
     ∧ (⟨[⟨"aaaaaaaaaaaaaaaaaaaaaaaa", "A", none, none, none⟩], [], []⟩ : DB).chapter.filter
        (fun c => c.story_id == "aaaaaaaaaaaaaaaaaaaaaaaa") = [])
    ∧ get_story_detail ⟨[⟨"aaaaaaaaaaaaaaaaaaaaaaaa", "A", none, none, none⟩], [], []⟩
        "aaaaaaaaaaaaaaaaaaaaaaaa"
      = (.ok ⟨"aaaaaaaaaaaaaaaaaaaaaaaa", "A", none, none, none, []⟩,
         [.read "story", .read "chapter"]) :=
  ⟨⟨by decide, rfl, rfl⟩,
   c5_detail_empty_chapters
     ⟨[⟨"aaaaaaaaaaaaaaaaaaaaaaaa", "A", none, none, none⟩], [], []⟩
     "aaaaaaaaaaaaaaaaaaaaaaaa" ⟨"aaaaaaaaaaaaaaaaaaaaaaaa", "A", none, none, none⟩
     (by decide) rfl rfl⟩

/-- C6: the listing endpoints never validate parent existence and never fail:
their results do not depend on the parent collections at all (deliberate
asymmetry from creation), they are total functions, and they return the empty
list whenever no stored child matches the given parent id — for every parent
id string, malformed or not. -/
theorem c6_listing_ignores_parent (d : DB) (sid cid : String)
    (stories : List StoryDoc) (chs : List ChapterDoc) (bs : List BubbleDoc) :
    (list_chapters ⟨stories, d.chapter, bs⟩ sid = list_chapters d sid)
    ∧ (d.chapter.filter (fun c => c.story_id == sid) = [] → list_chapters d sid = [])
    ∧ (list_bubbles ⟨stories, chs, d.bubble⟩ cid = list_bubbles d cid)
    ∧ (d.bubble.filter (fun b => b.chapter_id == cid) = [] → list_bubbles d cid = []) := by
  refine ⟨rfl, ?_, rfl, ?_⟩
  · intro h; simp [list_chapters, get_documents_chapter, h]
  · intro h; simp [list_bubbles, get_documents_bubble, h]

theorem c6_listing_ignores_parent_witness :
    ((⟨[], [⟨"bbbbbbbbbbbbbbbbbbbbbbbb", "aaaaaaaaaaaaaaaaaaaaaaaa", "C", some 0⟩], []⟩ : DB).chapter.filter
        (fun c => c.story_id == "zz") = []
     ∧ list_chapters ⟨[], [⟨"bbbbbbbbbbbbbbbbbbbbbbbb", "aaaaaaaaaaaaaaaaaaaaaaaa", "C", some 0⟩], []⟩ "zz" = [])
    ∧ ((⟨[], [], []⟩ : DB).bubble.filter (fun b => b.chapter_id == "zz") = []
     ∧ list_bubbles ⟨[], [], []⟩ "zz" = []) :=
  ⟨⟨rfl,
    (c6_listing_ignores_parent
      ⟨[], [⟨"bbbbbbbbbbbbbbbbbbbbbbbb", "aaaaaaaaaaaaaaaaaaaaaaaa", "C", some 0⟩], []⟩
      "zz" "zz" [] [] []).2.1 rfl⟩,
   ⟨rfl, (c6_listing_ignores_parent ⟨[], [], []⟩ "zz" "zz" [] [] []).2.2.2 rfl⟩⟩

/-- C3: `list_chapters` returns exactly the stored chapter documents whose
`story_id` equals the query (a permutation of the serialized matching set, so
each matching record — ties on `order` included — appears exactly once),
arranged with the `order` field non-decreasing; likewise `list_bubbles` for
`chapter_id`. -/
theorem c3_listing_sorted_permutation (d : DB) (sid cid : String) :
    ((list_chapters d sid).Perm
        ((d.chapter.filter (fun c => c.story_id == sid)).map chapterOutOfDoc)
      ∧ (list_chapters d sid).Pairwise (fun a b => a.order ≤ b.order))
    ∧ ((list_bubbles d cid).Perm
        ((d.bubble.filter (fun b => b.chapter_id == cid)).map bubbleOutOfDoc)
      ∧ (list_bubbles d cid).Pairwise (fun a b => a.order ≤ b.order)) := by
  haveI : IsTotal ChapterDoc chapterListLE := ⟨fun a b => le_total _ _⟩
  haveI : IsTrans ChapterDoc chapterListLE := ⟨fun a b c => le_trans⟩
  haveI : IsTotal BubbleDoc bubbleListLE := ⟨fun a b => le_total _ _⟩
  haveI : IsTrans BubbleDoc bubbleListLE := ⟨fun a b c => le_trans⟩
  refine ⟨⟨?_, ?_⟩, ⟨?_, ?_⟩⟩
  · exact (List.perm_insertionSort chapterListLE _).map chapterOutOfDoc
  · rw [list_chapters]
    exact List.pairwise_map.mpr (List.sorted_insertionSort chapterListLE _)
  · exact (List.perm_insertionSort bubbleListLE _).map bubbleOutOfDoc
  · rw [list_bubbles]
    exact List.pairwise_map.mpr (List.sorted_insertionSort bubbleListLE _)

/-- C9: the sibling sort of the listing endpoints is stable: restricted to any
fixed `order` value `k`, the listing's output equals the store-returned
sequence (serialized) restricted to `k` — ties are broken exactly by the
store's per-query return order. -/
theorem c9_listing_sort_stable (d : DB) (sid cid : String) (k : Int) :
    ((list_chapters d sid).filter (fun o => o.order == k)
      = ((d.chapter.filter (fun c => c.story_id == sid)).map chapterOutOfDoc).filter
          (fun o => o.order == k))
    ∧ ((list_bubbles d cid).filter (fun o => o.order == k)
      = ((d.bubble.filter (fun b => b.chapter_id == cid)).map bubbleOutOfDoc).filter
          (fun o => o.order == k)) := by
  constructor
  · rw [list_chapters, get_documents_chapter, List.filter_map, List.filter_map,
      filter_insertionSort chapterListLE _
        (fun a b ha hb => by
          simp only [Function.comp, chapterOutOfDoc, beq_iff_eq] at ha hb
          show a.order.getD 0 ≤ b.order.getD 0
          rw [ha, hb])]
  · rw [list_bubbles, get_documents_bubble, List.filter_map, List.filter_map,
      filter_insertionSort bubbleListLE _
        (fun a b ha hb => by
          simp only [Function.comp, bubbleOutOfDoc, beq_iff_eq] at ha hb
          show a.order.getD 0 ≤ b.order.getD 0
          rw [ha, hb])]

/-- C7 counterexample: the claim "a request whose title is ... the empty
string is rejected ... and no Story record is stored" is false: a body whose
`title` is the empty JSON string passes `StoryCreate` validation (`title: str`
has no non-emptiness constraint), `create_story` succeeds, and a Story record
with empty title is written to the store. -/
theorem c7_empty_title_accepted :
    (create_story ⟨[], [], []⟩ [("title", JValue.str "")] "aaaaaaaaaaaaaaaaaaaaaaaa").1
      = .ok "aaaaaaaaaaaaaaaaaaaaaaaa"
    ∧ (create_story ⟨[], [], []⟩ [("title", JValue.str "")] "aaaaaaaaaaaaaaaaaaaaaaaa").2.1
      = ⟨[⟨"aaaaaaaaaaaaaaaaaaaaaaaa", "", none, none, none⟩], [], []⟩ :=
  ⟨rfl, rfl⟩

/-- C7 amended: a Story-create request whose `title` field is missing or not a
JSON string is rejected with a validation (client) error and no Story record
is stored (no store access at all); an empty-string title, however, is
accepted. -/
theorem c7_title_required (d : DB) (body : List (String × JValue)) (fresh : String)
    (h : ((lookupField body "title").map JValue.isStr).getD false = false) :
    create_story d body fresh = (.error .validationError, d, []) := by
  cases hlk : lookupField body "title" with
  | none => simp [create_story, validateStoryCreate, hlk]
  | some v =>
    rw [hlk] at h
    simp only [Option.map_some', Option.getD_some] at h
    cases v <;> simp_all [create_story, validateStoryCreate, JValue.isStr]

theorem c7_title_required_witness :
    ((lookupField [("title", JValue.int 3)] "title").map JValue.isStr).getD false = false
    ∧ create_story ⟨[], [], []⟩ [("title", JValue.int 3)] "ffffffffffffffffffffffff"
        = (.error .validationError, ⟨[], [], []⟩, []) :=
  ⟨rfl, c7_title_required ⟨[], [], []⟩ [("title", JValue.int 3)] "ffffffffffffffffffffffff" rfl⟩

/-- C8 counterexample: the claim "a negative `order` is rejected as a
ValidationError ... issued before any store access" is false on two counts:
with an existing well-formed parent, the pydantic `ValidationError` (raised by
`ChapterSchema`, whose `order` field carries `ge=0`) is produced only *after*
the parent-existence store read (non-empty event trace); and with a
well-formed but nonexistent parent, a negative `order` is rejected as
`notFound`, not as a validation error. -/
theorem c8_negative_order_after_store_read :
    (create_chapter ⟨[⟨"aaaaaaaaaaaaaaaaaaaaaaaa", "A", none, none, none⟩], [], []⟩
        ⟨"aaaaaaaaaaaaaaaaaaaaaaaa", "C", -1⟩ "bbbbbbbbbbbbbbbbbbbbbbbb"
      = (.error .validationError,
         ⟨[⟨"aaaaaaaaaaaaaaaaaaaaaaaa", "A", none, none, none⟩], [], []⟩,
         [.read "story"]))
    ∧ ([StoreEvent.read "story"] ≠ ([] : List StoreEvent))
    ∧ (create_chapter ⟨[], [], []⟩ ⟨"aaaaaaaaaaaaaaaaaaaaaaaa", "C", -1⟩ "bbbbbbbbbbbbbbbbbbbbbbbb"
      = (.error (.notFound "Parent story not found"), ⟨[], [], []⟩, [.read "story"])) :=
  ⟨rfl, by decide, rfl⟩

/-- C8 amended: a Chapter-create or Bubble-create request with a negative
`order` never succeeds and never writes any record (the store state is
unchanged and no write event is issued); when the parent id is well-formed and
the parent exists, the rejection is the pydantic `ValidationError` raised by
the schema constructor, issued after (not before) the parent-existence store
read; when the parent check fails, its `invalidId`/`notFound` error takes
precedence. -/
theorem c8_negative_order_rejected (d : DB) (cp : ChapterCreate)
    (bp : BubbleCreate) (f1 f2 : String) :
    (cp.order < 0 →
      (create_chapter d cp f1).2.1 = d
      ∧ (∀ i : String, (create_chapter d cp f1).1 ≠ .ok i)
      ∧ (∀ coll, StoreEvent.write coll ∉ (create_chapter d cp f1).2.2)
      ∧ (ObjectId.is_valid cp.story_id = true →
         (d.story.filter (fun s => s._id == cp.story_id)).length ≠ 0 →
         create_chapter d cp f1 = (.error .validationError, d, [.read "story"])))
    ∧ (bp.order < 0 →
      (create_bubble d bp f2).2.1 = d
      ∧ (∀ i : String, (create_bubble d bp f2).1 ≠ .ok i)
      ∧ (∀ coll, StoreEvent.write coll ∉ (create_bubble d bp f2).2.2)
      ∧ (ObjectId.is_valid bp.chapter_id = true →
         (d.chapter.filter (fun c => c._id == bp.chapter_id)).length ≠ 0 →
         create_bubble d bp f2 = (.error .validationError, d, [.read "chapter"]))) := by
  constructor
  · intro ho
    by_cases hv : ObjectId.is_valid cp.story_id = true
    · by_cases hl : (d.story.filter (fun s => s._id == cp.story_id)).length = 0
      · refine ⟨by simp [create_chapter, hv, hl], ?_, ?_, ?_⟩
        · intro i; simp [create_chapter, hv, hl]
        · intro coll; simp [create_chapter, hv, hl]
        · intro _ hne; exact absurd hl hne
      · refine ⟨by simp [create_chapter, hv, hl, ho], ?_, ?_, ?_⟩
        · intro i; simp [create_chapter, hv, hl, ho]
        · intro coll; simp [create_chapter, hv, hl, ho]
        · intro _ _; simp [create_chapter, hv, hl, ho]
    · refine ⟨by simp [create_chapter, Bool.of_not_eq_true hv], ?_, ?_, ?_⟩
      · intro i; simp [create_chapter, Bool.of_not_eq_true hv]
      · intro coll; simp [create_chapter, Bool.of_not_eq_true hv]
      · intro hv2 _; exact absurd hv2 hv
  · intro ho
    by_cases hv : ObjectId.is_valid bp.chapter_id = true
    · by_cases hl : (d.chapter.filter (fun c => c._id == bp.chapter_id)).length = 0
      · refine ⟨by simp [create_bubble, hv, hl], ?_, ?_, ?_⟩
        · intro i; simp [create_bubble, hv, hl]
        · intro coll; simp [create_bubble, hv, hl]
        · intro _ hne; exact absurd hl hne
      · refine ⟨by simp [create_bubble, hv, hl, ho], ?_, ?_, ?_⟩
        · intro i; simp [create_bubble, hv, hl, ho]
        · intro coll; simp [create_bubble, hv, hl, ho]
        · intro _ _; simp [create_bubble, hv, hl, ho]
    · refine ⟨by simp [create_bubble, Bool.of_not_eq_true hv], ?_, ?_, ?_⟩
      · intro i; simp [create_bubble, Bool.of_not_eq_true hv]
      · intro coll; simp [create_bubble, Bool.of_not_eq_true hv]
      · intro hv2 _; exact absurd hv2 hv

theorem c8_negative_order_rejected_witness :
    ((-1 : Int) < 0
     ∧ ObjectId.is_valid "aaaaaaaaaaaaaaaaaaaaaaaa" = true
     ∧ ((⟨[⟨"aaaaaaaaaaaaaaaaaaaaaaaa", "A", none, none, none⟩], [], []⟩ : DB).story.filter
          (fun s => s._id == "aaaaaaaaaaaaaaaaaaaaaaaa")).length ≠ 0)
    ∧ create_chapter ⟨[⟨"aaaaaaaaaaaaaaaaaaaaaaaa", "A", none, none, none⟩], [], []⟩
        ⟨"aaaaaaaaaaaaaaaaaaaaaaaa", "C", -1⟩ "bbbbbbbbbbbbbbbbbbbbbbbb"
      = (.error .validationError,
         ⟨[⟨"aaaaaaaaaaaaaaaaaaaaaaaa", "A", none, none, none⟩], [], []⟩,
         [.read "story"]) :=
  ⟨⟨by decide, by decide, by decide⟩,
   ((c8_negative_order_rejected
       ⟨[⟨"aaaaaaaaaaaaaaaaaaaaaaaa", "A", none, none, none⟩], [], []⟩
       ⟨"aaaaaaaaaaaaaaaaaaaaaaaa", "C", -1⟩ ⟨"zz", "x", -1⟩
       "bbbbbbbbbbbbbbbbbbbbbbbb" "cccccccccccccccccccccccc").1
     (by decide)).2.2.2 (by decide) (by decide)⟩

/-- Shape of a successful `get_story_detail`: the `chapters` field is the
store-sorted matching chapter documents, each serialized with its nested
bubbles by `chapterEntryOfDoc`. -/
theorem story_detail_ok_shape (d : DB) (sid : String) (det : StoryDetail)
    (tr : List StoreEvent) (h : get_story_detail d sid = (.ok det, tr)) :
    det.chapters =
      ((d.chapter.filter (fun c => c.story_id == sid)).insertionSort chapterDbLE).map
        (chapterEntryOfDoc d) := by
  by_cases hv : ObjectId.is_valid sid = true
  · cases hf : d.story.find? (fun s => s._id == sid) with
    | none => simp [get_story_detail, hv, hf] at h
    | some story =>
      simp only [get_story_detail, hv, Bool.not_true, Bool.false_eq_true, if_false, hf,
        Prod.mk.injEq, Except.ok.injEq] at h
      rw [← h.1]
  · simp [get_story_detail, Bool.of_not_eq_true hv] at h

/-- C4: in every successful story-detail fetch, every bubble entry nested in a
chapter entry comes from a stored bubble whose `chapter_id` equals that
chapter's id; every stored bubble whose `chapter_id` equals a listed chapter's
id appears exactly once in that chapter's bubble list; and no bubble entry is
ever cross-assigned to a chapter entry whose id differs from the stored
bubble's `chapter_id` — regardless of overlapping `order` values across
chapters (the store's `_id`s are assumed unique, `hB`). -/
theorem c4_detail_nests_correctly (d : DB) (sid : String) (det : StoryDetail)
    (tr : List StoreEvent)
    (hB : (d.bubble.map (fun b => b._id)).Nodup)
    (h : get_story_detail d sid = (.ok det, tr)) :
    (∀ ch ∈ det.chapters, ∀ be ∈ ch.bubbles,
       ∃ bd ∈ d.bubble, bd._id = be.id ∧ bd.chapter_id = ch.id)
    ∧ (∀ bd ∈ d.bubble, ∀ ch ∈ det.chapters, bd.chapter_id = ch.id →
       (ch.bubbles.map (fun be => be.id)).count bd._id = 1)
    ∧ (∀ bd ∈ d.bubble, ∀ ch ∈ det.chapters, bd.chapter_id ≠ ch.id →
       ∀ be ∈ ch.bubbles, be.id ≠ bd._id) := by
  have hch := story_detail_ok_shape d sid det tr h
  refine ⟨?_, ?_, ?_⟩
  · intro ch hmem be hbe
    rw [hch] at hmem
    obtain ⟨cd, hcd, rfl⟩ := List.mem_map.mp hmem
    simp only [chapterEntryOfDoc] at hbe
    obtain ⟨bd, hbd, rfl⟩ := List.mem_map.mp hbe
    rw [List.mem_insertionSort] at hbd
    have hbd2 := List.mem_filter.mp hbd
    exact ⟨bd, hbd2.1, rfl, by simpa using hbd2.2⟩
  · intro bd hbd ch hmem hcid
    rw [hch] at hmem
    obtain ⟨cd, hcd, rfl⟩ := List.mem_map.mp hmem
    simp only [chapterEntryOfDoc] at hcid ⊢
    rw [List.map_map, List.count_eq_countP, List.countP_map,
      (List.perm_insertionSort bubbleDbLE _).countP_eq, List.countP_filter]
    have hq : (bd.chapter_id == cd._id) = true := by simpa using hcid
    have := countP_key_eq_one (fun y : BubbleDoc => y._id)
      (fun y => y.chapter_id == cd._id) d.bubble hB bd hbd hq
    rw [← this]
    rfl
  · intro bd hbd ch hmem hne be hbe
    rw [hch] at hmem
    obtain ⟨cd, hcd, rfl⟩ := List.mem_map.mp hmem
    simp only [chapterEntryOfDoc] at hne hbe ⊢
    obtain ⟨y, hy, rfl⟩ := List.mem_map.mp hbe
    rw [List.mem_insertionSort] at hy
    have hy2 := List.mem_filter.mp hy
    intro heq
    have hyb : y = bd :=
      List.inj_on_of_nodup_map hB hy2.1 hbd (by simpa using heq)
    apply hne
    rw [← hyb]
    simpa using hy2.2

theorem c4_detail_nests_correctly_witness :
    (((⟨[⟨"aaaaaaaaaaaaaaaaaaaaaaaa", "A", none, none, none⟩],
        [⟨"bbbbbbbbbbbbbbbbbbbbbbbb", "aaaaaaaaaaaaaaaaaaaaaaaa", "C1", some 1⟩,
         ⟨"cccccccccccccccccccccccc", "aaaaaaaaaaaaaaaaaaaaaaaa", "C2", some 0⟩],
        [⟨"dddddddddddddddddddddddd", "bbbbbbbbbbbbbbbbbbbbbbbb", "x", some 0⟩,
         ⟨"eeeeeeeeeeeeeeeeeeeeeeee", "cccccccccccccccccccccccc", "y", some 0⟩]⟩ : DB).bubble.map
        (fun b => b._id)).Nodup
     ∧ get_story_detail
        ⟨[⟨"aaaaaaaaaaaaaaaaaaaaaaaa", "A", none, none, none⟩],
         [⟨"bbbbbbbbbbbbbbbbbbbbbbbb", "aaaaaaaaaaaaaaaaaaaaaaaa", "C1", some 1⟩,
          ⟨"cccccccccccccccccccccccc", "aaaaaaaaaaaaaaaaaaaaaaaa", "C2", some 0⟩],
         [⟨"dddddddddddddddddddddddd", "bbbbbbbbbbbbbbbbbbbbbbbb", "x", some 0⟩,
          ⟨"eeeeeeeeeeeeeeeeeeeeeeee", "cccccccccccccccccccccccc", "y", some 0⟩]⟩
        "aaaaaaaaaaaaaaaaaaaaaaaa"
       = (.ok ⟨"aaaaaaaaaaaaaaaaaaaaaaaa", "A", none, none, none,
               [⟨"cccccccccccccccccccccccc", "C2", 0, [⟨"eeeeeeeeeeeeeeeeeeeeeeee", "y", 0⟩]⟩,
                ⟨"bbbbbbbbbbbbbbbbbbbbbbbb", "C1", 1, [⟨"dddddddddddddddddddddddd", "x", 0⟩]⟩]⟩,
          [.read "story", .read "chapter", .read "bubble", .read "bubble"]))
    ∧ (∀ ch ∈ (⟨"aaaaaaaaaaaaaaaaaaaaaaaa", "A", none, none, none,
               [⟨"cccccccccccccccccccccccc", "C2", 0, [⟨"eeeeeeeeeeeeeeeeeeeeeeee", "y", 0⟩]⟩,
                ⟨"bbbbbbbbbbbbbbbbbbbbbbbb", "C1", 1, [⟨"dddddddddddddddddddddddd", "x", 0⟩]⟩]⟩ :
                StoryDetail).chapters, ∀ be ∈ ch.bubbles,
          ∃ bd ∈ (⟨[⟨"aaaaaaaaaaaaaaaaaaaaaaaa", "A", none, none, none⟩],
            [⟨"bbbbbbbbbbbbbbbbbbbbbbbb", "aaaaaaaaaaaaaaaaaaaaaaaa", "C1", some 1⟩,
             ⟨"cccccccccccccccccccccccc", "aaaaaaaaaaaaaaaaaaaaaaaa", "C2", some 0⟩],
            [⟨"dddddddddddddddddddddddd", "bbbbbbbbbbbbbbbbbbbbbbbb", "x", some 0⟩,
             ⟨"eeeeeeeeeeeeeeeeeeeeeeee", "cccccccccccccccccccccccc", "y", some 0⟩]⟩ : DB).bubble,
            bd._id = be.id ∧ bd.chapter_id = ch.id) :=
  ⟨⟨by decide, rfl⟩,
   (c4_detail_nests_correctly
     ⟨[⟨"aaaaaaaaaaaaaaaaaaaaaaaa", "A", none, none, none⟩],
      [⟨"bbbbbbbbbbbbbbbbbbbbbbbb", "aaaaaaaaaaaaaaaaaaaaaaaa", "C1", some 1⟩,
       ⟨"cccccccccccccccccccccccc", "aaaaaaaaaaaaaaaaaaaaaaaa", "C2", some 0⟩],
      [⟨"dddddddddddddddddddddddd", "bbbbbbbbbbbbbbbbbbbbbbbb", "x", some 0⟩,
       ⟨"eeeeeeeeeeeeeeeeeeeeeeee", "cccccccccccccccccccccccc", "y", some 0⟩]⟩
     "aaaaaaaaaaaaaaaaaaaaaaaa"
     ⟨"aaaaaaaaaaaaaaaaaaaaaaaa", "A", none, none, none,
      [⟨"cccccccccccccccccccccccc", "C2", 0, [⟨"eeeeeeeeeeeeeeeeeeeeeeee", "y", 0⟩]⟩,
       ⟨"bbbbbbbbbbbbbbbbbbbbbbbb", "C1", 1, [⟨"dddddddddddddddddddddddd", "x", 0⟩]⟩]⟩
     [.read "story", .read "chapter", .read "bubble", .read "bubble"]
     (by decide) rfl).1⟩

/-- C10: a stored chapter or bubble document lacking the `order` field is
treated as having order `0` on every read path: its listing serialization
(`chapterOutOfDoc`/`bubbleOutOfDoc`) and its detail serialization
(`bubbleEntryOfDoc`, and `chapterEntryOfDoc` via the nested entries) carry
`order = 0`, and the listing endpoints behave identically on a store where
every missing `order` is replaced by a literal `0` — so it also sorts as `0`
there. -/
theorem c10_missing_order_defaults (d : DB) (sid cid : String)
    (det : StoryDetail) (tr : List StoreEvent) (c : ChapterDoc) (b : BubbleDoc) :
    (c.order = none →
      chapterOutOfDoc c = chapterOutOfDoc (normChapter c) ∧ (chapterOutOfDoc c).order = 0)
    ∧ (b.order = none →
      bubbleOutOfDoc b = bubbleOutOfDoc (normBubble b) ∧ (bubbleOutOfDoc b).order = 0
      ∧ (bubbleEntryOfDoc b).order = 0)
    ∧ (list_chapters { d with chapter := d.chapter.map normChapter } sid = list_chapters d sid)
    ∧ (list_bubbles { d with bubble := d.bubble.map normBubble } cid = list_bubbles d cid)
    ∧ (get_story_detail d sid = (.ok det, tr) →
       ∀ ch ∈ det.chapters,
         (∃ cd ∈ d.chapter, cd._id = ch.id ∧ ch.order = cd.order.getD 0)
         ∧ ∀ be ∈ ch.bubbles, ∃ bd ∈ d.bubble, bd._id = be.id ∧ be.order = bd.order.getD 0) := by
  refine ⟨?_, ?_, ?_, ?_, ?_⟩
  · intro hc
    refine ⟨rfl, ?_⟩
    simp [chapterOutOfDoc, hc]
  · intro hb
    refine ⟨rfl, ?_, ?_⟩
    · simp [bubbleOutOfDoc, hb]
    · simp [bubbleEntryOfDoc, hb]
  · show (((d.chapter.map normChapter).filter (fun x => x.story_id == sid)).insertionSort
        chapterListLE).map chapterOutOfDoc
      = ((d.chapter.filter (fun x => x.story_id == sid)).insertionSort
        chapterListLE).map chapterOutOfDoc
    have h1 : (d.chapter.map normChapter).filter (fun x => x.story_id == sid)
        = (d.chapter.filter (fun x => x.story_id == sid)).map normChapter := by
      rw [List.filter_map]
      exact congrArg (List.map normChapter) (List.filter_congr (fun x _ => rfl))
    rw [h1,
      ← List.map_insertionSort chapterListLE chapterListLE normChapter _
        (fun a _ b _ => Iff.rfl),
      List.map_map]
    rfl
  · show (((d.bubble.map normBubble).filter (fun x => x.chapter_id == cid)).insertionSort
        bubbleListLE).map bubbleOutOfDoc
      = ((d.bubble.filter (fun x => x.chapter_id == cid)).insertionSort
        bubbleListLE).map bubbleOutOfDoc
    have h1 : (d.bubble.map normBubble).filter (fun x => x.chapter_id == cid)
        = (d.bubble.filter (fun x => x.chapter_id == cid)).map normBubble := by
      rw [List.filter_map]
      exact congrArg (List.map normBubble) (List.filter_congr (fun x _ => rfl))
    rw [h1,
      ← List.map_insertionSort bubbleListLE bubbleListLE normBubble _
        (fun a _ b _ => Iff.rfl),
      List.map_map]
    rfl
  · intro h ch hmem
    rw [story_detail_ok_shape d sid det tr h] at hmem
    obtain ⟨cd, hcd, rfl⟩ := List.mem_map.mp hmem
    rw [List.mem_insertionSort] at hcd
    constructor
    · exact ⟨cd, (List.mem_filter.mp hcd).1, rfl, rfl⟩
    · intro be hbe
      simp only [chapterEntryOfDoc] at hbe
      obtain ⟨bd, hbd, rfl⟩ := List.mem_map.mp hbe
      rw [List.mem_insertionSort] at hbd
      exact ⟨bd, (List.mem_filter.mp hbd).1, rfl, rfl⟩

theorem c10_missing_order_defaults_witness :
    ((⟨"bbbbbbbbbbbbbbbbbbbbbbbb", "aaaaaaaaaaaaaaaaaaaaaaaa", "C1", none⟩ : ChapterDoc).order = none
     ∧ (chapterOutOfDoc ⟨"bbbbbbbbbbbbbbbbbbbbbbbb", "aaaaaaaaaaaaaaaaaaaaaaaa", "C1", none⟩).order = 0)
    ∧ (get_story_detail
        ⟨[⟨"aaaaaaaaaaaaaaaaaaaaaaaa", "A", none, none, none⟩],
         [⟨"bbbbbbbbbbbbbbbbbbbbbbbb", "aaaaaaaaaaaaaaaaaaaaaaaa", "C1", none⟩],
         [⟨"dddddddddddddddddddddddd", "bbbbbbbbbbbbbbbbbbbbbbbb", "x", none⟩]⟩
        "aaaaaaaaaaaaaaaaaaaaaaaa"
       = (.ok ⟨"aaaaaaaaaaaaaaaaaaaaaaaa", "A", none, none, none,
               [⟨"bbbbbbbbbbbbbbbbbbbbbbbb", "C1", 0, [⟨"dddddddddddddddddddddddd", "x", 0⟩]⟩]⟩,
          [.read "story", .read "chapter", .read "bubble"]))
    ∧ (∀ ch ∈ (⟨"aaaaaaaaaaaaaaaaaaaaaaaa", "A", none, none, none,
               [⟨"bbbbbbbbbbbbbbbbbbbbbbbb", "C1", 0, [⟨"dddddddddddddddddddddddd", "x", 0⟩]⟩]⟩ :
                StoryDetail).chapters,
         (∃ cd ∈ (⟨[⟨"aaaaaaaaaaaaaaaaaaaaaaaa", "A", none, none, none⟩],
            [⟨"bbbbbbbbbbbbbbbbbbbbbbbb", "aaaaaaaaaaaaaaaaaaaaaaaa", "C1", none⟩],
            [⟨"dddddddddddddddddddddddd", "bbbbbbbbbbbbbbbbbbbbbbbb", "x", none⟩]⟩ : DB).chapter,
            cd._id = ch.id ∧ ch.order = cd.order.getD 0)
         ∧ ∀ be ∈ ch.bubbles,
            ∃ bd ∈ (⟨[⟨"aaaaaaaaaaaaaaaaaaaaaaaa", "A", none, none, none⟩],
              [⟨"bbbbbbbbbbbbbbbbbbbbbbbb", "aaaaaaaaaaaaaaaaaaaaaaaa", "C1", none⟩],
              [⟨"dddddddddddddddddddddddd", "bbbbbbbbbbbbbbbbbbbbbbbb", "x", none⟩]⟩ : DB).bubble,
              bd._id = be.id ∧ be.order = bd.order.getD 0) :=
  ⟨⟨rfl,
    ((c10_missing_order_defaults ⟨[], [], []⟩ "zz" "zz"
        ⟨"zz", "t", none, none, none, []⟩ []
        ⟨"bbbbbbbbbbbbbbbbbbbbbbbb", "aaaaaaaaaaaaaaaaaaaaaaaa", "C1", none⟩
        ⟨"dddddddddddddddddddddddd", "bbbbbbbbbbbbbbbbbbbbbbbb", "x", none⟩).1 rfl).2⟩,
   rfl,
   (c10_missing_order_defaults
      ⟨[⟨"aaaaaaaaaaaaaaaaaaaaaaaa", "A", none, none, none⟩],
       [⟨"bbbbbbbbbbbbbbbbbbbbbbbb", "aaaaaaaaaaaaaaaaaaaaaaaa", "C1", none⟩],
       [⟨"dddddddddddddddddddddddd", "bbbbbbbbbbbbbbbbbbbbbbbb", "x", none⟩]⟩
      "aaaaaaaaaaaaaaaaaaaaaaaa" "zz"
      ⟨"aaaaaaaaaaaaaaaaaaaaaaaa", "A", none, none, none,
       [⟨"bbbbbbbbbbbbbbbbbbbbbbbb", "C1", 0, [⟨"dddddddddddddddddddddddd", "x", 0⟩]⟩]⟩
      [.read "story", .read "chapter", .read "bubble"]
      ⟨"zz", "zz", "t", none⟩ ⟨"zz", "zz", "x", none⟩).2.2.2.2 rfl⟩
